import Mathlib

/-!
Verification of the routing and search core of `src/dht/dhtcore/RouterModule.c`
against its specification.  C `uint32_t` values are embedded as `Nat` with an
explicit `% 2 ^ 32` wherever the C arithmetic can wrap; bencoded lookups that
may fail are embedded as `Option`; C functions whose only failure mode is a
NULL-pointer dereference are embedded as `Except Unit`, with `Except.error ()`
standing for the dereference.  The bodies of `NodeStore.c`, `SearchStore.c`
and `AverageRoller.c` are not among the repository's files; the definitions
standing in for them carry a doc comment starting `Modelled from the spec:`
and follow the spec's words (and RouterModule.c's own header comment, which
states the node-store return contract).
-/

namespace DhtCore

/-- C constant `UINT32_MAX` (4294967295). -/
def UINT32_MAX : Nat := 4294967295

/-- `GMRT_SECONDS` from RouterModule.c line 139. -/
def GMRT_SECONDS : Nat := 256

/-- `GMRT_INITAL_MILLISECONDS` from RouterModule.c line 145 (sic). -/
def GMRT_INITAL_MILLISECONDS : Nat := 100

/-- `NODE_STORE_SIZE` from RouterModule.c line 148. -/
def NODE_STORE_SIZE : Nat := 16384

/-- `RETURN_SIZE` from RouterModule.c line 151. -/
def RETURN_SIZE : Nat := 8

/-- `RouterModule_K` (declared in RouterModule.h, which is not among the
files; the spec fixes `RETURN_SIZE = K = 8`). -/
def RouterModule_K : Nat := 8

/-- The pure response-time-ratio expression of `calculateResponseTimeRatio`
(RouterModule.c line 229) as a function of an already-computed global mean
response time `gmrt` and a response time, in 32-bit unsigned arithmetic:
`(responseTime > 2 * gmrt) ? UINT32_MAX : ((UINT32_MAX / 2) / gmrt) * responseTime`.
`2 * gmrt` and the final product are `uint32_t` computations, hence the
`% 2 ^ 32`. -/
def rtRatio (gmrt responseTime : Nat) : Nat :=
  if responseTime > (2 * gmrt) % 2 ^ 32 then UINT32_MAX
  else (UINT32_MAX / 2 / gmrt * responseTime) % 2 ^ 32

/-- Modelled from the spec: the state of the rolling average of response
times (`AverageRoller`, whose source is not among the files).  The spec gives
`update(sample) → current_mean` over a 256-second window of one-second
buckets; within a single instant every sample seen lies inside the window, so
the state is the sum and the count of the window's samples. -/
structure AverageRoller where
  sum : Nat
  count : Nat
deriving DecidableEq

/-- Modelled from the spec: `AverageRoller_update(roller, sample)` folds the
sample into the window and returns the updated state with the new mean. -/
def AverageRoller_update (roller : AverageRoller) (sample : Nat) :
    AverageRoller × Nat :=
  let r := AverageRoller.mk (roller.sum + sample) (roller.count + 1)
  (r, r.sum / r.count)

/-- Modelled from the spec: `AverageRoller_getAverage` returns the latest
mean without folding in a sample. -/
def AverageRoller_getAverage (roller : AverageRoller) : Nat :=
  roller.sum / roller.count

/-- `calculateResponseTimeRatio` from RouterModule.c lines 226-230.  The body
first feeds `responseTime` into the global-mean roller
(`AverageRoller_update(gmrtRoller, responseTime)`) and computes the ratio
against the mean that call returns; the updated roller state is carried
alongside the ratio. -/
def calculateResponseTimeRatio (gmrtRoller : AverageRoller)
    (responseTime : Nat) : AverageRoller × Nat :=
  let u := AverageRoller_update gmrtRoller responseTime
  (u.fst,
    if responseTime > (2 * u.snd) % 2 ^ 32 then UINT32_MAX
    else (UINT32_MAX / 2 / u.snd * responseTime) % 2 ^ 32)

/-- `calculateDistance` from RouterModule.c lines 253-279, on the 32-bit id
prefixes.  `atv` is the C local `at` (distance Alice-target), `bt` the
distance reply-target, `ab` the distance Alice-reply; in the overshoot
branch `bt < ab` holds, so C's unsigned subtraction agrees with `Nat`
subtraction. -/
def calculateDistance (nodeIdPrefix targetPrefix firstResponseIdPrefix : Nat) :
    Nat :=
  let atv := Nat.xor nodeIdPrefix targetPrefix
  let bt := Nat.xor firstResponseIdPrefix targetPrefix
  if bt > atv then 0
  else
    let ab := Nat.xor nodeIdPrefix firstResponseIdPrefix
    if atv < ab then ab - bt
    else ab

/-- A node-store record (`struct Node` of dhtcore/Node.h, which is not among
the files; the spec gives the fields): the 20-byte id (`address`), the 6-byte
network address, and the 32-bit `reach`. -/
structure Node where
  address : List Nat
  networkAddress : List Nat
  reach : Nat
deriving DecidableEq

/-- `AddrPrefix_get`: the first four bytes of a 20-byte id in network order,
read as an unsigned integer (AddrPrefix.h is not among the files; the spec:
"the first four bytes in network order, read as a host-order unsigned
integer"). -/
def AddrPrefix_get (address : List Nat) : Nat :=
  ((address.getD 0 0 * 256 + address.getD 1 0) * 256 + address.getD 2 0) * 256
    + address.getD 3 0

/-- The node store: our own 20-byte id and the records (NodeStore.c is not
among the files; the shape follows the spec). -/
structure NodeStore where
  ourAddress : List Nat
  nodes : List Node
deriving DecidableEq

/-- Modelled from the spec: the eviction order of the full node store
("replace the record with the lowest reach; on tie, the one whose distance to
our own id is greatest").  `evictBefore ourPfx a b` says `a` is evicted in
preference to `b`. -/
def evictBefore (ourPfx : Nat) (a b : Node) : Bool :=
  if a.reach < b.reach then true
  else if b.reach < a.reach then false
  else decide (Nat.xor (AddrPrefix_get b.address) ourPfx ≤
    Nat.xor (AddrPrefix_get a.address) ourPfx)

/-- Modelled from the spec: the record a full store evicts, per
`evictBefore`. -/
def evictVictim (ourPfx : Nat) : List Node → Option Node
  | [] => none
  | n :: ns =>
    match evictVictim ourPfx ns with
    | none => some n
    | some m => if evictBefore ourPfx n m then some n else some m

/-- Modelled from the spec: `NodeStore_addNode` (NodeStore.c is not among the
files).  "If the store contains `id`, update its address" — reach preserved —
"otherwise insert with reach=0.  If full, evict per the policy above." -/
def NodeStore_addNode (store : NodeStore) (address networkAddress : List Nat) :
    NodeStore :=
  if store.nodes.any (fun n => decide (n.address = address)) then
    NodeStore.mk store.ourAddress (store.nodes.map (fun n =>
      if n.address = address then Node.mk n.address networkAddress n.reach
      else n))
  else if store.nodes.length < NODE_STORE_SIZE then
    NodeStore.mk store.ourAddress
      (store.nodes ++ [Node.mk address networkAddress 0])
  else
    match evictVictim (AddrPrefix_get store.ourAddress) store.nodes with
    | none =>
      NodeStore.mk store.ourAddress
        (store.nodes ++ [Node.mk address networkAddress 0])
    | some victim =>
      NodeStore.mk store.ourAddress
        (Node.mk address networkAddress 0 :: store.nodes.erase victim)

/-- Modelled from the spec: the distance/reach ranking of
`NodeStore_getClosestNodes` — "the smallest `distance(id,target) / reach`
ratios, using the 32-bit prefixes", zero reach counting as an infinite ratio,
"ties broken by smaller XOR distance, then by larger reach".
`rankedBefore tp a b` says `a` ranks no later than `b`; finite ratios are
compared by cross-multiplication. -/
def rankedBefore (targetPfx : Nat) (a b : Node) : Bool :=
  let da := Nat.xor (AddrPrefix_get a.address) targetPfx
  let db := Nat.xor (AddrPrefix_get b.address) targetPfx
  let tie : Bool :=
    if da < db then true
    else if db < da then false
    else decide (b.reach ≤ a.reach)
  if a.reach = 0 then
    if b.reach = 0 then tie else false
  else if b.reach = 0 then true
  else if da * b.reach < db * a.reach then true
  else if db * a.reach < da * b.reach then false
  else tie

/-- Insertion into a list ranked by `le`. -/
def insertRanked (le : Node → Node → Bool) (n : Node) : List Node → List Node
  | [] => [n]
  | m :: ms => if le n m then n :: m :: ms else m :: insertRanked le n ms

/-- Insertion sort by `le`. -/
def sortRanked (le : Node → Node → Bool) : List Node → List Node
  | [] => []
  | n :: ns => insertRanked le n (sortRanked le ns)

/-- Modelled from the spec: `NodeStore_getClosestNodes` (NodeStore.c is not
among the files).  RouterModule.c's own header comment (lines 94-99) is the
contract: "This implementation must never respond to a search by sending any
node who's id is not closer to the target than it's own" — so only nodes
strictly closer to the target than our own id are returned — and among those
the `count` with the lowest distance:reach ratio. -/
def NodeStore_getClosestNodes (store : NodeStore) (targetAddress : List Nat)
    (count : Nat) : List Node :=
  let tp := AddrPrefix_get targetAddress
  let ourDistance := Nat.xor (AddrPrefix_get store.ourAddress) tp
  let eligible := store.nodes.filter
    (fun n => decide (Nat.xor (AddrPrefix_get n.address) tp < ourDistance))
  (sortRanked (rankedBefore tp) eligible).take count

/-- The fields `handleQuery` (RouterModule.c lines 491-535) reads from the
inbound query it is answering: the querier's id (`myId` under the query's
arguments), the `target` and `info_hash` values, and the querier's network
address.  An absent key is `none`. -/
structure QueryMsg where
  myId : Option (List Nat)
  targetId : Option (List Nat)
  infoHash : Option (List Nat)
  peerAddress : List Nat
deriving DecidableEq

/-- The target `handleQuery` extracts (lines 507-510): the `target` value,
or the `info_hash` value when `target` is absent. -/
def targetOf (query : QueryMsg) : Option (List Nat) :=
  match query.targetId with
  | some t => some t
  | none => query.infoHash

/-- The 26-byte-per-record `nodes` blob `handleQuery` serialises (lines
521-529): for each node of the list, its 20-byte id followed by its 6-byte
network address. -/
def serializeNodes (nodes : List Node) : List Nat :=
  nodes.foldr (fun n acc => n.address ++ n.networkAddress ++ acc) []

/-- `handleQuery` from RouterModule.c lines 491-535, as a function from the
node store and the inbound query to the updated store and the optional
`nodes` value put into the reply arguments: drop when the querier's id is
missing or not 20 bytes; record the querier; drop (silently, querier kept)
when the target is missing or not 20 bytes; compute the closest `K` nodes of
the updated store and attach their 26-byte records iff the list is non-empty
(`if (i > 0)`, line 530). -/
def handleQuery (store : NodeStore) (query : QueryMsg) :
    NodeStore × Option (List Nat) :=
  match query.myId with
  | none => (store, none)
  | some address =>
    if address.length ≠ 20 then (store, none)
    else
      let store1 := NodeStore_addNode store address query.peerAddress
      match targetOf query with
      | none => (store1, none)
      | some target =>
        if target.length ≠ 20 then (store1, none)
        else
          let nodeList := NodeStore_getClosestNodes store1 target RouterModule_K
          if 0 < nodeList.length then (store1, some (serializeNodes nodeList))
          else (store1, none)

/-- A contacted candidate within a search (`struct SearchStore_Node`;
SearchStore.c is not among the files, the fields follow the spec): id,
network address, and whether a request was already sent to it (the spec's
`send_time`, reduced to the flag the claims need). -/
structure SearchNode where
  address : List Nat
  networkAddress : List Nat
  requestSent : Bool
deriving DecidableEq

/-- Modelled from the spec: `SearchStore_getNextNode` "returns the unvisited
candidate with smallest XOR distance to the search target", or `none` when
every candidate has been visited. -/
def SearchStore_getNextNode (targetPfx : Nat) :
    List SearchNode → Option SearchNode
  | [] => none
  | c :: cs =>
    match SearchStore_getNextNode targetPfx cs with
    | none => if c.requestSent then none else some c
    | some b =>
      if c.requestSent then some b
      else if Nat.xor (AddrPrefix_get c.address) targetPfx ≤
          Nat.xor (AddrPrefix_get b.address) targetPfx then some c
      else some b

/-- Modelled from the spec: `SearchStore_requestSent` "records
`send_time = now()`" on the candidate; here it sets the `requestSent`
flag. -/
def SearchStore_requestSent (node : SearchNode)
    (candidates : List SearchNode) : List SearchNode :=
  candidates.map (fun c =>
    if c = node then SearchNode.mk c.address c.networkAddress true else c)

/-- The seed candidates `RouterModule_beginSearch` adds to the fresh search
(lines 600-606): one unvisited `SearchStore_Node` per node of the
closest-nodes query, `parent = NULL`. -/
def seedCandidates (store : NodeStore) (targetAddress : List Nat) :
    List SearchNode :=
  (NodeStore_getClosestNodes store targetAddress RETURN_SIZE).map
    (fun n => SearchNode.mk n.address n.networkAddress false)

/-- What one `RouterModule_beginSearch` call does, as data: the C return
value, the network addresses it sent requests to, the search's candidates
(with `requestSent` recording `SearchStore_requestSent`), and whether the
pacing timer was armed (`Timeout_setTimeout`, line 625). -/
structure BeginSearchOut where
  ret : Int
  sentTo : List (List Nat)
  candidates : List SearchNode
  timerArmed : Bool
deriving DecidableEq

/-- `RouterModule_beginSearch` from RouterModule.c lines 583-645: seed from
`NodeStore_getClosestNodes(nodeStore, searchTarget, RETURN_SIZE, ...)`; when
the list is empty return -1 with nothing sent and no timer; otherwise add the
seeds, fetch `SearchStore_getNextNode`, send the request to it, record the
send, arm the pacing timer, and return 0.  The callback-context registration
(lines 622-642) has no bearing on the claims and carries no data here.
`Except.error ()` is the unchecked dereference `firstSearchNode->...` of a
NULL `getNextNode` result (line 613); it is proved unreachable. -/
def RouterModule_beginSearch (store : NodeStore) (targetAddress : List Nat) :
    Except Unit BeginSearchOut :=
  let nodes := NodeStore_getClosestNodes store targetAddress RETURN_SIZE
  if nodes.length = 0 then
    Except.ok (BeginSearchOut.mk (-1) [] [] false)
  else
    let candidates := seedCandidates store targetAddress
    match SearchStore_getNextNode (AddrPrefix_get targetAddress) candidates with
    | none => Except.error ()
    | some firstSearchNode =>
      Except.ok (BeginSearchOut.mk 0 [firstSearchNode.networkAddress]
        (SearchStore_requestSent firstSearchNode candidates) true)

/-- What one `searchStep` invocation does, as data: the addresses sent to,
the candidates afterwards, and whether the pacing timer was reset. -/
structure SearchStepOut where
  sentTo : List (List Nat)
  candidates : List SearchNode
  timerReset : Bool
deriving DecidableEq

/-- `searchStep` from RouterModule.c lines 415-431: fetch
`SearchStore_getNextNode` and — with no NULL check — send to
`nextSearchNode->networkAddress`, record the send and reset the timer.
`Except.error ()` is the dereference of the NULL result. -/
def searchStep (targetPfx : Nat) (candidates : List SearchNode) :
    Except Unit SearchStepOut :=
  match SearchStore_getNextNode targetPfx candidates with
  | none => Except.error ()
  | some nextSearchNode =>
    Except.ok (SearchStepOut.mk [nextSearchNode.networkAddress]
      (SearchStore_requestSent nextSearchNode candidates) true)

/-- The values `handleReply` reads from the reply arguments (the `r`
dictionary): the `nodes` value and the sender's id (`myId`), each `none` when
the key is absent. -/
structure ReplyArgs where
  nodes : Option (List Nat)
  myId : Option (List Nat)
deriving DecidableEq

/-- An incoming reply as `handleReply` (RouterModule.c lines 433-478) reads
it: the optional `r` dictionary and the sender's network address.  (The
transaction id's resolution to a search node is abstracted by the
`parentFound` parameter of `handleReply`.) -/
structure ReplyMsg where
  replyArgs : Option ReplyArgs
  peerAddress : List Nat
deriving DecidableEq

/-- What one `handleReply` call does, as data: the C return value, the
`(id, networkAddress)` pairs passed to `NodeStore_addNode`, the pairs passed
to `SearchStore_addNodeToSearch`, whether the next hop was issued
(`searchStep`, line 473) and whether the search was finalised (`cleanup`,
line 475). -/
structure HandleReplyOut where
  ret : Int
  addedToStore : List (List Nat × List Nat)
  addedToSearch : List (List Nat × List Nat)
  nextHopIssued : Bool
  finalised : Bool
deriving DecidableEq

/-- The malformed-`nodes` branch of `handleReply` (lines 440-445): look up
`myId` and pass it to `NodeStore_addNode` with no NULL check —
`Except.error ()` is the dereference `address->bytes` of an absent `myId` —
then return -1 without touching the search. -/
def handleReplyPing (message : ReplyMsg) (arguments : ReplyArgs) :
    Except Unit HandleReplyOut :=
  match arguments.myId with
  | none => Except.error ()
  | some address =>
    Except.ok (HandleReplyOut.mk (-1) [(address, message.peerAddress)] []
      false false)

/-- The 26-byte records of the `nodes` value (lines 459-468): bytes 0-19 are
the id, bytes 20-25 the network address; the loop steps by 26 while bytes
remain. -/
def nodeRecords (bytes : List Nat) : List (List Nat × List Nat) :=
  if bytes = [] then []
  else (bytes.take 20, (bytes.drop 20).take 6) :: nodeRecords (bytes.drop 26)
termination_by bytes.length
decreasing_by
  rename_i h
  have hp : 0 < bytes.length := List.length_pos.mpr h
  simp only [List.length_drop]
  omega

/-- `handleReply` from RouterModule.c lines 433-478.  `parentFound` stands
for `SearchStore_getNode(tid, ...)` finding the originating search node;
`callbackStop` for the search driver's callback returning stop.  No reply
arguments: return 0.  `nodes` absent or of length not divisible by 26: the
ping branch (`handleReplyPing`).  Unknown tid: return -1, nothing added.
Otherwise every 26-byte record is added to the node store and to the search,
and the callback either continues the search (`searchStep`) or finalises it
(`cleanup`). -/
def handleReply (message : ReplyMsg) (parentFound callbackStop : Bool) :
    Except Unit HandleReplyOut :=
  match message.replyArgs with
  | none => Except.ok (HandleReplyOut.mk 0 [] [] false false)
  | some arguments =>
    match arguments.nodes with
    | none => handleReplyPing message arguments
    | some ns =>
      if ns.length % 26 ≠ 0 then handleReplyPing message arguments
      else if !parentFound then Except.ok (HandleReplyOut.mk (-1) [] [] false false)
      else
        let records := nodeRecords ns
        if callbackStop then
          Except.ok (HandleReplyOut.mk 0 records records false true)
        else
          Except.ok (HandleReplyOut.mk 0 records records true false)

/-- The claim's "closest non-zero-reach node to the target", stated in its
words for comparison with the code: `address` belongs to a positive-reach
record whose XOR distance (on 32-bit prefixes) to the target is no greater
than that of every other positive-reach record. -/
def isClosestNonzeroReach (store : NodeStore)
    (address targetAddress : List Nat) : Prop :=
  (∃ n ∈ store.nodes, n.address = address ∧ 0 < n.reach) ∧
  ∀ m ∈ store.nodes, 0 < m.reach →
    Nat.xor (AddrPrefix_get address) (AddrPrefix_get targetAddress) ≤
      Nat.xor (AddrPrefix_get m.address) (AddrPrefix_get targetAddress)

/-- Concrete id: our own node, prefix `0xFF000000`. -/
def exOurId : List Nat := 255 :: List.replicate 19 0

/-- Concrete search target, prefix `0x00000000`. -/
def exTargetId : List Nat := List.replicate 20 0

/-- Concrete querier id, prefix `0x10000000`. -/
def exQuerierId : List Nat := 16 :: List.replicate 19 0

/-- Concrete zero-reach node id, prefix `0x01000000`. -/
def exZeroId : List Nat := 1 :: List.replicate 19 0

/-- Concrete store: the querier with reach 5 (the only positive-reach record,
hence the closest such to any target) and one zero-reach node; both are
closer to `exTargetId` than our own id. -/
def exStore : NodeStore :=
  NodeStore.mk exOurId
    [Node.mk exQuerierId [1, 2, 3, 4, 5, 6] 5,
     Node.mk exZeroId [7, 8, 9, 10, 11, 12] 0]

/-- Concrete inbound query from `exQuerierId` for `exTargetId`. -/
def exQuery : QueryMsg :=
  QueryMsg.mk (some exQuerierId) (some exTargetId) none [1, 2, 3, 4, 5, 6]

/-! ## Theorems -/

/-- Membership is invariant under ranked insertion. -/
theorem mem_insertRanked (le : Node → Node → Bool) (n x : Node) :
    ∀ l : List Node, (x ∈ insertRanked le n l ↔ x = n ∨ x ∈ l) := by
  intro l
  induction l with
  | nil => simp [insertRanked]
  | cons m ms ih =>
    simp only [insertRanked]
    by_cases h : le n m = true
    · rw [if_pos h]
      simp [List.mem_cons]
    · rw [if_neg h]
      rw [List.mem_cons, List.mem_cons, ih]
      tauto

/-- Membership is invariant under the ranking sort. -/
theorem mem_sortRanked (le : Node → Node → Bool) (x : Node) :
    ∀ l : List Node, (x ∈ sortRanked le l ↔ x ∈ l) := by
  intro l
  induction l with
  | nil => simp [sortRanked]
  | cons n ns ih =>
    simp only [sortRanked, mem_insertRanked, ih, List.mem_cons]

/-- Every node `NodeStore_getClosestNodes` returns is strictly closer to the
target, by XOR on the 32-bit prefixes, than our own id. -/
theorem getClosestNodes_closer (store : NodeStore) (targetAddress : List Nat)
    (count : Nat) (n : Node)
    (h : n ∈ NodeStore_getClosestNodes store targetAddress count) :
    Nat.xor (AddrPrefix_get n.address) (AddrPrefix_get targetAddress) <
      Nat.xor (AddrPrefix_get store.ourAddress)
        (AddrPrefix_get targetAddress) := by
  simp only [NodeStore_getClosestNodes] at h
  have h1 := List.take_subset _ _ h
  rw [mem_sortRanked] at h1
  exact of_decide_eq_true (List.mem_filter.mp h1).2

/-- `NodeStore_addNode` never changes our own id. -/
theorem ourAddress_addNode (store : NodeStore) (a na : List Nat) :
    (NodeStore_addNode store a na).ourAddress = store.ourAddress := by
  unfold NodeStore_addNode
  split
  · rfl
  · split
    · rfl
    · split <;> rfl

/-- The `nodes` value `handleQuery` attaches: `none`, or — when the querier
id and the target are present and 20 bytes long and the closest-node list of
the updated store is non-empty — that list's serialisation. -/
theorem handleQuery_snd (store : NodeStore) (query : QueryMsg) :
    (handleQuery store query).snd = none ∨
    ∃ address target,
      query.myId = some address ∧ address.length = 20 ∧
      targetOf query = some target ∧ target.length = 20 ∧
      NodeStore_getClosestNodes (NodeStore_addNode store address
        query.peerAddress) target RouterModule_K ≠ [] ∧
      (handleQuery store query).snd =
        some (serializeNodes (NodeStore_getClosestNodes
          (NodeStore_addNode store address query.peerAddress) target
          RouterModule_K)) := by
  cases hmy : query.myId with
  | none => left; simp [handleQuery, hmy]
  | some address =>
    by_cases h20 : address.length = 20
    · cases htgt : targetOf query with
      | none => left; simp [handleQuery, hmy, htgt, h20]
      | some target =>
        by_cases ht20 : target.length = 20
        · by_cases hne : NodeStore_getClosestNodes (NodeStore_addNode store
              address query.peerAddress) target RouterModule_K = []
          · left; simp [handleQuery, hmy, htgt, h20, ht20, hne]
          · right
            refine ⟨address, target, rfl, h20, rfl, ht20, hne, ?_⟩
            have hpos := List.length_pos.mpr hne
            simp [handleQuery, hmy, htgt, h20, ht20, hpos]
        · left; simp [handleQuery, hmy, htgt, h20, ht20]
    · left; simp [handleQuery, hmy, h20]

/-- `handleQuery`'s `nodes` value when the querier id and target are present
and well-formed: attached iff the closest-node list of the updated store is
non-empty. -/
theorem handleQuery_snd_valid (store : NodeStore) (query : QueryMsg)
    (address target : List Nat) (hmy : query.myId = some address)
    (h20 : address.length = 20) (htgt : targetOf query = some target)
    (ht20 : target.length = 20) :
    (handleQuery store query).snd =
      if NodeStore_getClosestNodes (NodeStore_addNode store address
          query.peerAddress) target RouterModule_K = [] then none
      else some (serializeNodes (NodeStore_getClosestNodes
        (NodeStore_addNode store address query.peerAddress) target
        RouterModule_K)) := by
  by_cases hne : NodeStore_getClosestNodes (NodeStore_addNode store address
      query.peerAddress) target RouterModule_K = []
  · simp [handleQuery, hmy, htgt, h20, ht20, hne]
  · have hpos := List.length_pos.mpr hne
    simp [handleQuery, hmy, htgt, h20, ht20, hne, hpos]

/-- Claim C2 (amended): every outgoing reply either carries no `nodes` value
or serialises only nodes strictly closer to the target (by XOR on the 32-bit
prefixes) than our own id; and for a well-formed query the `nodes` value is
attached exactly when the closest-node list of the updated store is
non-empty.  (No check of the querier's identity is performed; see the
counterexample.) -/
theorem C2_loop_freedom (store : NodeStore) (query : QueryMsg) :
    (∀ blob, (handleQuery store query).snd = some blob →
      ∃ target nodeList,
        targetOf query = some target ∧
        blob = serializeNodes nodeList ∧
        nodeList ≠ [] ∧
        ∀ n ∈ nodeList,
          Nat.xor (AddrPrefix_get n.address) (AddrPrefix_get target) <
            Nat.xor (AddrPrefix_get store.ourAddress)
              (AddrPrefix_get target)) ∧
    (∀ address target, query.myId = some address → address.length = 20 →
      targetOf query = some target → target.length = 20 →
      ((handleQuery store query).snd ≠ none ↔
        NodeStore_getClosestNodes (NodeStore_addNode store address
          query.peerAddress) target RouterModule_K ≠ [])) := by
  constructor
  · intro blob hblob
    rcases handleQuery_snd store query with H |
      ⟨address, target, hmy, h20, htgt, ht20, hne, heq⟩
    · rw [H] at hblob; cases hblob
    · rw [heq] at hblob
      refine ⟨target, _, htgt, (Option.some.inj hblob).symm, hne, ?_⟩
      intro n hn
      have hc := getClosestNodes_closer _ _ _ _ hn
      rwa [ourAddress_addNode] at hc
  · intro address target hmy h20 htgt ht20
    rw [handleQuery_snd_valid store query address target hmy h20 htgt ht20]
    by_cases hne : NodeStore_getClosestNodes (NodeStore_addNode store address
        query.peerAddress) target RouterModule_K = []
    · rw [if_pos hne]
      constructor
      · intro hfalse; exact absurd rfl hfalse
      · intro h; exact absurd hne h
    · rw [if_neg hne]
      constructor
      · intro _; exact hne
      · intro _; simp

/-- Claim C2, counterexample to the claim as stated: in `exStore` the querier
`exQuerierId` is the closest (indeed only) non-zero-reach node to the target
— before and after the query is processed — yet the reply to `exQuery`
carries a `nodes` value: `handleQuery` performs no check of the querier's
identity. -/
theorem C2_counterexample :
    isClosestNonzeroReach exStore exQuerierId exTargetId ∧
    isClosestNonzeroReach (handleQuery exStore exQuery).fst exQuerierId
      exTargetId ∧
    (handleQuery exStore exQuery).snd ≠ none := by
  refine ⟨?_, ?_, by decide⟩ <;> · unfold isClosestNonzeroReach; decide

/-- Claim C2, witness: the attachment condition at the concrete query. -/
theorem C2_witness :
    (handleQuery exStore exQuery).snd ≠ none ↔
      NodeStore_getClosestNodes
        (NodeStore_addNode exStore exQuerierId exQuery.peerAddress) exTargetId
        RouterModule_K ≠ [] :=
  (C2_loop_freedom exStore exQuery).2 exQuerierId exTargetId rfl (by decide)
    rfl (by decide)

/-- Claim C3 (amended): for `gmrt > 0` with `2·gmrt` below `2^32`, the
response-time ratio is non-decreasing in the response time; it equals
`UINT32_MAX` for every `t` strictly greater than `2·gmrt`; at `t = gmrt` it
equals `⌊(UINT32_MAX/2)/gmrt⌋·gmrt` (the claimed `UINT32_MAX/2` only when
`gmrt` divides `UINT32_MAX/2`); and it equals 0 at `t = 0`.  The
non-punishment branch computes `((UINT32_MAX/2)/gmrt)·t` in unsigned integer
arithmetic. -/
theorem C3_rtRatio_props (gmrt : Nat) (hg : 0 < gmrt) (hw : 2 * gmrt < 2 ^ 32) :
    (∀ t u, t ≤ u → rtRatio gmrt t ≤ rtRatio gmrt u) ∧
    (∀ t, 2 * gmrt < t → rtRatio gmrt t = UINT32_MAX) ∧
    rtRatio gmrt gmrt = UINT32_MAX / 2 / gmrt * gmrt ∧
    rtRatio gmrt 0 = 0 := by
  have hmod : (2 * gmrt) % 2 ^ 32 = 2 * gmrt := Nat.mod_eq_of_lt hw
  have hbound : ∀ t, t ≤ 2 * gmrt →
      UINT32_MAX / 2 / gmrt * t ≤ 4294967294 := by
    intro t ht
    calc UINT32_MAX / 2 / gmrt * t ≤ UINT32_MAX / 2 / gmrt * (2 * gmrt) :=
          Nat.mul_le_mul le_rfl ht
      _ = 2 * (UINT32_MAX / 2 / gmrt * gmrt) := by ring
      _ ≤ 2 * (UINT32_MAX / 2) :=
          Nat.mul_le_mul le_rfl (Nat.div_mul_le_self _ _)
      _ ≤ 4294967294 := by norm_num [UINT32_MAX]
  have hsmall : ∀ t, t ≤ 2 * gmrt →
      (UINT32_MAX / 2 / gmrt * t) % 2 ^ 32 = UINT32_MAX / 2 / gmrt * t := by
    intro t ht
    exact Nat.mod_eq_of_lt (lt_of_le_of_lt (hbound t ht) (by norm_num))
  refine ⟨?_, ?_, ?_, ?_⟩
  · intro t u htu
    unfold rtRatio
    rw [hmod]
    rcases Nat.lt_or_ge (2 * gmrt) t with ht | ht
    · rw [if_pos ht, if_pos (lt_of_lt_of_le ht htu)]
    · rcases Nat.lt_or_ge (2 * gmrt) u with hu | hu
      · rw [if_neg (Nat.not_lt.mpr ht), if_pos hu, hsmall t ht]
        exact le_trans (hbound t ht) (by norm_num [UINT32_MAX])
      · rw [if_neg (Nat.not_lt.mpr ht), if_neg (Nat.not_lt.mpr hu),
          hsmall t ht, hsmall u hu]
        exact Nat.mul_le_mul le_rfl htu
  · intro t ht
    unfold rtRatio
    rw [hmod, if_pos ht]
  · unfold rtRatio
    rw [hmod, if_neg (Nat.not_lt.mpr (by omega))]
    exact hsmall gmrt (by omega)
  · unfold rtRatio
    rw [hmod, if_neg (Nat.not_lt.mpr (Nat.zero_le _))]
    simp

/-- Claim C3, counterexample to the claim as stated: at `gmrt = 100` the code
gives `rtRatio 100 200 = 4294967200`, not `UINT32_MAX` (the punishment branch
takes `t > 2·gmrt`, not `t ≥ 2·gmrt`), and `rtRatio 100 100 = 2147483600`,
not `UINT32_MAX/2 = 2147483647` (the scaling factor is the floored quotient
`(UINT32_MAX/2)/gmrt`). -/
theorem C3_counterexample :
    rtRatio 100 200 ≠ UINT32_MAX ∧ rtRatio 100 100 ≠ UINT32_MAX / 2 := by
  constructor <;> decide

/-- Claim C3, witness at `gmrt = 100`. -/
theorem C3_witness :
    (∀ t u, t ≤ u → rtRatio 100 t ≤ rtRatio 100 u) ∧
    (∀ t, 2 * 100 < t → rtRatio 100 t = UINT32_MAX) ∧
    rtRatio 100 100 = UINT32_MAX / 2 / 100 * 100 ∧
    rtRatio 100 0 = 0 :=
  C3_rtRatio_props 100 (by norm_num) (by norm_num)

/-- Claim C4: with `atv = node XOR target`, `bt = reply XOR target`,
`ab = node XOR reply`, `calculateDistance` returns 0 when `bt > atv`,
`ab - bt` when `bt ≤ atv` and `atv < ab` (overshoot), `ab` otherwise; and on
the spec's scenario S1, `calculateDistance 0xAAAAAAAA 0 0x55555555 =
0xAAAAAAAA`. -/
theorem C4_calculateDistance_cases
    (nodeIdPrefix targetPrefix firstResponseIdPrefix : Nat) :
    (Nat.xor nodeIdPrefix targetPrefix <
        Nat.xor firstResponseIdPrefix targetPrefix →
      calculateDistance nodeIdPrefix targetPrefix firstResponseIdPrefix = 0) ∧
    (Nat.xor firstResponseIdPrefix targetPrefix ≤
        Nat.xor nodeIdPrefix targetPrefix →
      Nat.xor nodeIdPrefix targetPrefix <
        Nat.xor nodeIdPrefix firstResponseIdPrefix →
      calculateDistance nodeIdPrefix targetPrefix firstResponseIdPrefix =
        Nat.xor nodeIdPrefix firstResponseIdPrefix -
          Nat.xor firstResponseIdPrefix targetPrefix) ∧
    (Nat.xor firstResponseIdPrefix targetPrefix ≤
        Nat.xor nodeIdPrefix targetPrefix →
      Nat.xor nodeIdPrefix firstResponseIdPrefix ≤
        Nat.xor nodeIdPrefix targetPrefix →
      calculateDistance nodeIdPrefix targetPrefix firstResponseIdPrefix =
        Nat.xor nodeIdPrefix firstResponseIdPrefix) ∧
    calculateDistance 0xAAAAAAAA 0x00000000 0x55555555 = 0xAAAAAAAA := by
  refine ⟨?_, ?_, ?_, by decide⟩
  · intro h
    simp only [calculateDistance]
    rw [if_pos h]
  · intro h1 h2
    simp only [calculateDistance]
    rw [if_neg (Nat.not_lt.mpr h1), if_pos h2]
  · intro h1 h2
    simp only [calculateDistance]
    rw [if_neg (Nat.not_lt.mpr h1), if_neg (Nat.not_lt.mpr h2)]

/-- Claim C4, witness: the spec's scenario S2 by the first case. -/
theorem C4_witness :
    calculateDistance 0x10000000 0x00000000 0x20000000 = 0 :=
  (C4_calculateDistance_cases 0x10000000 0x00000000 0x20000000).1 (by decide)

/-- Claim C5: whenever `reply XOR target ≥ node XOR target` — the equality
case included — `calculateDistance` returns 0.  (When equal, XOR-cancellation
forces `reply = node`, so `ab = 0` and the non-overshoot branch returns
`ab = 0`.) -/
theorem C5_backpedalling_zero
    (nodeIdPrefix targetPrefix firstResponseIdPrefix : Nat)
    (h : Nat.xor nodeIdPrefix targetPrefix ≤
      Nat.xor firstResponseIdPrefix targetPrefix) :
    calculateDistance nodeIdPrefix targetPrefix firstResponseIdPrefix = 0 := by
  rcases Nat.lt_or_ge (Nat.xor nodeIdPrefix targetPrefix)
      (Nat.xor firstResponseIdPrefix targetPrefix) with hlt | hge
  · simp only [calculateDistance]
    rw [if_pos hlt]
  · have heq : Nat.xor firstResponseIdPrefix targetPrefix =
        Nat.xor nodeIdPrefix targetPrefix := le_antisymm hge h
    have hnode : firstResponseIdPrefix = nodeIdPrefix := Nat.xor_left_inj.mp heq
    subst hnode
    have hxx : Nat.xor firstResponseIdPrefix firstResponseIdPrefix = 0 :=
      Nat.xor_self _
    simp only [calculateDistance]
    rw [if_neg (lt_irrefl _), hxx, if_neg (Nat.not_lt_zero _)]

/-- Claim C5, witness: the equality case `reply = node`. -/
theorem C5_witness :
    calculateDistance 0x12345678 0x00000000 0x12345678 = 0 :=
  C5_backpedalling_zero 0x12345678 0x00000000 0x12345678 (by decide)

/-- Claim C10: `calculateResponseTimeRatio` rates every sample against the
mean *after* the sample is folded in — its ratio equals the pure ratio at
`AverageRoller_update`'s return value, for the cutoff and the scaling factor
alike — and it is not a function of the prior mean: two rollers with the same
prior mean (100) rate the same sample (400) differently. -/
theorem C10_ratio_uses_updated_mean :
    (∀ (roller : AverageRoller) (responseTime : Nat),
      (calculateResponseTimeRatio roller responseTime).snd =
        rtRatio (AverageRoller_update roller responseTime).snd responseTime) ∧
    AverageRoller_getAverage (AverageRoller.mk 100 1) =
      AverageRoller_getAverage (AverageRoller.mk 200 2) ∧
    (calculateResponseTimeRatio (AverageRoller.mk 100 1) 400).snd ≠
      (calculateResponseTimeRatio (AverageRoller.mk 200 2) 400).snd := by
  exact ⟨fun roller responseTime => rfl, by decide, by decide⟩

/-- `SearchStore_getNextNode` finds a candidate whenever an unvisited one
exists. -/
theorem getNextNode_isSome (targetPfx : Nat) :
    ∀ l : List SearchNode, (∃ c ∈ l, c.requestSent = false) →
      ∃ b, SearchStore_getNextNode targetPfx l = some b := by
  intro l
  induction l with
  | nil =>
    rintro ⟨c, hc, -⟩
    cases hc
  | cons c cs ih =>
    rintro ⟨d, hd, hds⟩
    simp only [SearchStore_getNextNode]
    cases hrec : SearchStore_getNextNode targetPfx cs with
    | none =>
      rcases List.mem_cons.mp hd with heq | hmem
      · subst heq
        exact ⟨d, by simp [hds]⟩
      · obtain ⟨b, hb⟩ := ih ⟨d, hmem, hds⟩
        rw [hb] at hrec
        cases hrec
    | some b =>
      cases hcs : c.requestSent with
      | true => exact ⟨b, by simp⟩
      | false =>
        simp only [Bool.false_eq_true, if_false]
        split
        · exact ⟨c, rfl⟩
        · exact ⟨b, rfl⟩

/-- Claim C6: `RouterModule_beginSearch` returns -1 exactly when the
closest-nodes seeding query (`k = RETURN_SIZE = 8`) yields no candidate; on
that path nothing is sent and no timer is armed; otherwise it sends one
request to the candidate `SearchStore_getNextNode` selects, records the send
on it, arms the pacing timer and returns 0. -/
theorem C6_beginSearch (store : NodeStore) (targetAddress : List Nat) :
    ((∃ out, RouterModule_beginSearch store targetAddress = Except.ok out ∧
        out.ret = -1) ↔
      NodeStore_getClosestNodes store targetAddress RETURN_SIZE = []) ∧
    (NodeStore_getClosestNodes store targetAddress RETURN_SIZE = [] →
      RouterModule_beginSearch store targetAddress =
        Except.ok (BeginSearchOut.mk (-1) [] [] false)) ∧
    (NodeStore_getClosestNodes store targetAddress RETURN_SIZE ≠ [] →
      ∃ firstSearchNode,
        SearchStore_getNextNode (AddrPrefix_get targetAddress)
          (seedCandidates store targetAddress) = some firstSearchNode ∧
        RouterModule_beginSearch store targetAddress =
          Except.ok (BeginSearchOut.mk 0 [firstSearchNode.networkAddress]
            (SearchStore_requestSent firstSearchNode
              (seedCandidates store targetAddress)) true)) := by
  by_cases hnil : NodeStore_getClosestNodes store targetAddress RETURN_SIZE = []
  · have hres : RouterModule_beginSearch store targetAddress =
        Except.ok (BeginSearchOut.mk (-1) [] [] false) := by
      simp [RouterModule_beginSearch, hnil]
    exact ⟨⟨fun _ => hnil, fun _ => ⟨_, hres, rfl⟩⟩, fun _ => hres,
      fun h => absurd hnil h⟩
  · have hex : ∃ c ∈ seedCandidates store targetAddress,
        c.requestSent = false := by
      cases hl : NodeStore_getClosestNodes store targetAddress RETURN_SIZE with
      | nil => exact absurd hl hnil
      | cons a as =>
        exact ⟨SearchNode.mk a.address a.networkAddress false,
          by simp [seedCandidates, hl], rfl⟩
    obtain ⟨firstSearchNode, hfirst⟩ :=
      getNextNode_isSome (AddrPrefix_get targetAddress) _ hex
    have hlen :
        ¬ (NodeStore_getClosestNodes store targetAddress RETURN_SIZE).length
          = 0 := by
      simpa [List.length_eq_zero] using hnil
    have hres : RouterModule_beginSearch store targetAddress =
        Except.ok (BeginSearchOut.mk 0 [firstSearchNode.networkAddress]
          (SearchStore_requestSent firstSearchNode
            (seedCandidates store targetAddress)) true) := by
      simp [RouterModule_beginSearch, hlen, hfirst]
    refine ⟨⟨?_, fun h => absurd h hnil⟩, fun h => absurd h hnil,
      fun _ => ⟨firstSearchNode, hfirst, hres⟩⟩
    rintro ⟨out, hout, hret⟩
    rw [hres] at hout
    obtain rfl := Except.ok.inj hout
    simp at hret

/-- Claim C6, witness: the spec's scenario S4 — an empty node store makes
`RouterModule_beginSearch` fail with nothing sent and no timer armed. -/
theorem C6_witness :
    RouterModule_beginSearch (NodeStore.mk exOurId []) exTargetId =
      Except.ok (BeginSearchOut.mk (-1) [] [] false) :=
  (C6_beginSearch (NodeStore.mk exOurId []) exTargetId).2.1 rfl

/-- Claim C7: evaluating `searchStep` as written on a search whose candidates
are exhausted (every candidate already contacted, so
`SearchStore_getNextNode` returns NULL): the code dereferences the NULL
candidate — it does not finalise the search. -/
theorem C7_searchStep_null_deref :
    searchStep 0 [SearchNode.mk (List.replicate 20 3) (List.replicate 6 4)
      true] = Except.error () := rfl

/-- Claim C8: a reply whose `nodes` value is absent or of length not
divisible by 26 is treated as a ping answer: the sender (its `myId`) is
added to the node store with the reply's source network address, the return
value is -1, and the search path is untouched — nothing is added to any
search, no next hop is issued, nothing is finalised. -/
theorem C8_malformed_reply_is_ping (message : ReplyMsg)
    (arguments : ReplyArgs) (parentFound callbackStop : Bool)
    (address : List Nat)
    (hargs : message.replyArgs = some arguments)
    (hmal : arguments.nodes = none ∨
      ∃ ns, arguments.nodes = some ns ∧ ns.length % 26 ≠ 0)
    (hid : arguments.myId = some address) :
    handleReply message parentFound callbackStop =
      Except.ok (HandleReplyOut.mk (-1) [(address, message.peerAddress)] []
        false false) := by
  rcases hmal with hnone | ⟨ns, hsome, hlen⟩
  · simp [handleReply, hargs, hnone, handleReplyPing, hid]
  · simp [handleReply, hargs, hsome, hlen, handleReplyPing, hid]

/-- Claim C8, witness: a reply with no `nodes` value at all. -/
theorem C8_witness :
    handleReply (ReplyMsg.mk (some (ReplyArgs.mk none
        (some (List.replicate 20 7)))) [9, 9, 9, 9, 9, 9]) true false =
      Except.ok (HandleReplyOut.mk (-1)
        [(List.replicate 20 7, [9, 9, 9, 9, 9, 9])] [] false false) :=
  C8_malformed_reply_is_ping _ _ true false (List.replicate 20 7) rfl
    (Or.inl rfl) rfl

/-- Claim C9: `handleReply` is total on malformed-`nodes` replies only when
they carry a `myId`: with `nodes` absent or of length not divisible by 26
and `myId` absent, the looked-up NULL `myId` is passed to `NodeStore_addNode`
and dereferenced — the packet is not silently dropped. -/
theorem C9_missing_myId_null_deref (message : ReplyMsg)
    (arguments : ReplyArgs) (parentFound callbackStop : Bool)
    (hargs : message.replyArgs = some arguments)
    (hmal : arguments.nodes = none ∨
      ∃ ns, arguments.nodes = some ns ∧ ns.length % 26 ≠ 0)
    (hid : arguments.myId = none) :
    handleReply message parentFound callbackStop = Except.error () := by
  rcases hmal with hnone | ⟨ns, hsome, hlen⟩
  · simp [handleReply, hargs, hnone, handleReplyPing, hid]
  · simp [handleReply, hargs, hsome, hlen, handleReplyPing, hid]

/-- Claim C9, witness: a reply whose `nodes` value has length 3 and which
carries no `myId`. -/
theorem C9_witness :
    handleReply (ReplyMsg.mk (some (ReplyArgs.mk (some [1, 2, 3]) none))
      [8, 8, 8, 8, 8, 8]) true true = Except.error () :=
  C9_missing_myId_null_deref _ _ true true rfl
    (Or.inr ⟨[1, 2, 3], rfl, by decide⟩) rfl

end DhtCore
